import Mathlib

/-!
Verification development for the resume-builder application.
The definitions below are a shallow embedding of the functions in
`src/App.tsx` (scoring rubric, AI-summary fallback logic, PDF export
filename derivation) together with theorems settling the specified
properties of those functions.
-/

namespace ResumeBuilder

/-- Embeds the `Project` entries of the resume form (`src/types.ts`). -/
structure Project where
  title : String
  description : String
  technologies : String
deriving Repr, DecidableEq

/-- Embeds the `Activity` entries of the resume form (`src/types.ts`). -/
structure Activity where
  role : String
  achievements : String
deriving Repr, DecidableEq

/-- Embeds the `ResumeData` record (`src/types.ts` / the zod schema in `App.tsx`). -/
structure ResumeData where
  name : String
  email : String
  phone : String
  linkedin : String
  github : String
  location : String
  college : String
  degree : String
  year : String
  cgpa : String
  technicalSkills : String
  softSkills : String
  projects : List Project
  activities : List Activity
deriving Repr, DecidableEq

/-- The whitespace class of JavaScript regular expressions and `String.trim`
(ASCII whitespace, NBSP, the Unicode space separators, line/paragraph
separators and the BOM). -/
def isJsWhitespace (c : Char) : Bool :=
  c == ' ' || c == '\t' || c == '\n' || c == '\r' ||
  (c.toNat == 0x0b) || (c.toNat == 0x0c) || (c.toNat == 0xa0) ||
  (c.toNat == 0x1680) || (0x2000 ≤ c.toNat && c.toNat ≤ 0x200a) ||
  (c.toNat == 0x2028) || (c.toNat == 0x2029) || (c.toNat == 0x202f) ||
  (c.toNat == 0x205f) || (c.toNat == 0x3000) || (c.toNat == 0xfeff)

/-- JavaScript `String.prototype.trim`, modelled on the character list. -/
def jsTrim (s : String) : String :=
  String.mk (((s.data.dropWhile isJsWhitespace).reverse.dropWhile isJsWhitespace).reverse)

/-- Does `pat` occur at the head of `l`. -/
def listStartsWith : List Char → List Char → Bool
  | [], _ => true
  | _ :: _, [] => false
  | a :: as, b :: bs => a == b && listStartsWith as bs

/-- Does `pat` occur as a contiguous run anywhere in the list. -/
def listScan (pat : List Char) : List Char → Bool
  | [] => listStartsWith pat []
  | c :: rest => listStartsWith pat (c :: rest) || listScan pat rest

/-- JavaScript `String.prototype.includes`. -/
def jsIncludes (s pat : String) : Bool :=
  listScan pat.data s.data

/-- Splits a character list at every occurrence of `sep`, keeping empty
segments, exactly like JavaScript `String.prototype.split` with a
single-character separator. -/
def splitOnChar (sep : Char) : List Char → List (List Char)
  | [] => [[]]
  | c :: rest =>
    if c == sep then [] :: splitOnChar sep rest
    else
      match splitOnChar sep rest with
      | [] => [[c]]
      | g :: gs => (c :: g) :: gs

/-- JavaScript `s.split(',')`. -/
def jsSplitComma (s : String) : List String :=
  (splitOnChar ',' s.data).map String.mk

/-- Feedback text for incomplete contact details (`App.tsx` line 322). -/
def msgContact : String := "Complete your personal contact information."

/-- Feedback text for missing education details (`App.tsx` line 329). -/
def msgEducation : String := "Add your college and degree details."

/-- Feedback text when fewer than 8 skills are listed (`App.tsx` line 338). -/
def msgSkillsEight : String := "Try adding at least 8 technical skills for better visibility."

/-- Feedback text when fewer than 5 skills are listed (`App.tsx` line 341). -/
def msgSkillsFive : String := "Your skills section is a bit thin. Aim for 5-8 key skills."

/-- Feedback text when fewer than 3 skills are listed (`App.tsx` line 343). -/
def msgSkillsNone : String := "Add more technical skills to showcase your expertise."

/-- Feedback text for short project descriptions (`App.tsx` line 353). -/
def msgProjectDesc : String := "Expand your project descriptions to be more detailed (aim for 40+ characters)."

/-- Feedback text when no project exists (`App.tsx` line 356). -/
def msgProjectNone : String := "Add at least one project to demonstrate practical experience."

/-- Feedback text when no activity exists (`App.tsx` line 363). -/
def msgActivities : String := "Include extracurricular activities or club roles."

/-- Feedback text when the summary bonus is withheld (`App.tsx` line 370). -/
def msgSummary : String := "Generate an AI LinkedIn summary to boost your profile score."

/-- The marker substring that `calculateResumeScore` looks for in the summary
(`App.tsx` line 367). -/
def apiKeyMarker : String := "(Note: Gemini API key is missing"

/-- The number of comma-separated, non-blank technical skills:
`data.technicalSkills.split(',').filter(s => s.trim().length > 0).length`. -/
def skillsCount (data : ResumeData) : Nat :=
  ((jsSplitComma data.technicalSkills).filter (fun s => (jsTrim s).length > 0)).length

/-- The truthiness test `data.name && data.email && data.phone` (`App.tsx` line 319). -/
def contactOk (data : ResumeData) : Prop :=
  data.name ≠ "" ∧ data.email ≠ "" ∧ data.phone ≠ ""

instance (data : ResumeData) : Decidable (contactOk data) := by
  unfold contactOk
  infer_instance

/-- The truthiness test `data.college && data.degree` (`App.tsx` line 326). -/
def educationOk (data : ResumeData) : Prop :=
  data.college ≠ "" ∧ data.degree ≠ ""

instance (data : ResumeData) : Decidable (educationOk data) := by
  unfold educationOk
  infer_instance

/-- `data.projects.some(p => p.description.length > 40)` (`App.tsx` line 349). -/
def hasLongDescription (data : ResumeData) : Bool :=
  data.projects.any (fun p => p.description.length > 40)

/-- The summary-bonus condition
`summary && !summary.includes("(Note: Gemini API key is missing")` (`App.tsx` line 367). -/
def summaryOk (summary : String) : Prop :=
  summary ≠ "" ∧ jsIncludes summary apiKeyMarker = false

instance (summary : String) : Decidable (summaryOk summary) := by
  unfold summaryOk
  infer_instance

/-- The "Personal Details (10 points)" block of `calculateResumeScore`
(`App.tsx` lines 318-323), acting on the running (score, feedback) state. -/
def contactStep (data : ResumeData) (st : Nat × List String) : Nat × List String :=
  if contactOk data then (st.1 + 10, st.2) else (st.1, st.2 ++ [msgContact])

/-- The "Education (15 points)" block (`App.tsx` lines 325-330). -/
def educationStep (data : ResumeData) (st : Nat × List String) : Nat × List String :=
  if educationOk data then (st.1 + 15, st.2) else (st.1, st.2 ++ [msgEducation])

/-- The "Skills (20 points)" block (`App.tsx` lines 332-344). -/
def skillsStep (data : ResumeData) (st : Nat × List String) : Nat × List String :=
  if skillsCount data ≥ 8 then (st.1 + 20, st.2)
  else if skillsCount data ≥ 5 then (st.1 + 10, st.2 ++ [msgSkillsEight])
  else if skillsCount data ≥ 3 then (st.1 + 5, st.2 ++ [msgSkillsFive])
  else (st.1, st.2 ++ [msgSkillsNone])

/-- The "Projects (25 points)" block (`App.tsx` lines 346-357). -/
def projectsStep (data : ResumeData) (st : Nat × List String) : Nat × List String :=
  if data.projects.length > 0 then
    if hasLongDescription data then (st.1 + 10 + 15, st.2)
    else (st.1 + 10, st.2 ++ [msgProjectDesc])
  else (st.1, st.2 ++ [msgProjectNone])

/-- The "Activities (10 points)" block (`App.tsx` lines 359-364). -/
def activitiesStep (data : ResumeData) (st : Nat × List String) : Nat × List String :=
  if data.activities.length > 0 then (st.1 + 10, st.2)
  else (st.1, st.2 ++ [msgActivities])

/-- The "LinkedIn About (20 points)" block (`App.tsx` lines 366-371). -/
def summaryStep (summary : String) (st : Nat × List String) : Nat × List String :=
  if summaryOk summary then (st.1 + 20, st.2) else (st.1, st.2 ++ [msgSummary])

/-- Shallow embedding of `calculateResumeScore` (`App.tsx` lines 314-374).
The state pair carries the running score and the feedback pushed so far,
threaded through the six criterion blocks in the order the source
evaluates them, starting from `score = 0` and empty feedback. -/
def calculateResumeScore (data : ResumeData) (summary : String) : Nat × List String :=
  summaryStep summary
    (activitiesStep data
      (projectsStep data
        (skillsStep data
          (educationStep data
            (contactStep data (0, []))))))

/-- Points contributed by the contact-details criterion. -/
def contactPoints (data : ResumeData) : Nat :=
  if contactOk data then 10 else 0

/-- Feedback contributed by the contact-details criterion. -/
def contactFeedback (data : ResumeData) : List String :=
  if contactOk data then [] else [msgContact]

/-- Points contributed by the education criterion. -/
def educationPoints (data : ResumeData) : Nat :=
  if educationOk data then 15 else 0

/-- Feedback contributed by the education criterion. -/
def educationFeedback (data : ResumeData) : List String :=
  if educationOk data then [] else [msgEducation]

/-- The skills step function of the rubric, as a function of the skill count. -/
def skillsPointsOfCount (n : Nat) : Nat :=
  if n ≥ 8 then 20 else if n ≥ 5 then 10 else if n ≥ 3 then 5 else 0

/-- Feedback contributed by the skills criterion, as a function of the skill count. -/
def skillsFeedbackOfCount (n : Nat) : List String :=
  if n ≥ 8 then [] else if n ≥ 5 then [msgSkillsEight]
  else if n ≥ 3 then [msgSkillsFive] else [msgSkillsNone]

/-- Points contributed by the skills criterion. -/
def skillsPoints (data : ResumeData) : Nat :=
  skillsPointsOfCount (skillsCount data)

/-- Feedback contributed by the skills criterion. -/
def skillsFeedback (data : ResumeData) : List String :=
  skillsFeedbackOfCount (skillsCount data)

/-- Points contributed by the projects criterion. -/
def projectsPoints (data : ResumeData) : Nat :=
  if data.projects.length > 0 then
    if hasLongDescription data then 25 else 10
  else 0

/-- Feedback contributed by the projects criterion. -/
def projectsFeedback (data : ResumeData) : List String :=
  if data.projects.length > 0 then
    if hasLongDescription data then [] else [msgProjectDesc]
  else [msgProjectNone]

/-- Points contributed by the activities criterion. -/
def activitiesPoints (data : ResumeData) : Nat :=
  if data.activities.length > 0 then 10 else 0

/-- Feedback contributed by the activities criterion. -/
def activitiesFeedback (data : ResumeData) : List String :=
  if data.activities.length > 0 then [] else [msgActivities]

/-- Points contributed by the summary-quality criterion. -/
def summaryPoints (summary : String) : Nat :=
  if summaryOk summary then 20 else 0

/-- Feedback contributed by the summary-quality criterion. -/
def summaryFeedback (summary : String) : List String :=
  if summaryOk summary then [] else [msgSummary]

/-- The part of the score that does not depend on the summary argument. -/
def nonSummaryPoints (data : ResumeData) : Nat :=
  contactPoints data + educationPoints data + skillsPoints data +
    projectsPoints data + activitiesPoints data

/-- The sentinel `generateSummary` substitutes when the credential is missing
or a placeholder (`App.tsx` line 403). -/
def missingKeySentinel : String :=
  "Passionate student eager to contribute to innovative projects. (Note: Gemini API key is missing or invalid in environment secrets)"

/-- The generic fallback used on service failure or an empty response
(`App.tsx` lines 423 and 426). -/
def genericFallback : String :=
  "Passionate student eager to contribute to innovative projects."

/-- The placeholder credential value checked at `App.tsx` line 402. -/
def placeholderKey : String := "MY_GEMINI_API_KEY"

/-- The literal string "undefined" checked at `App.tsx` line 402. -/
def undefinedKeyLiteral : String := "undefined"

/-- Outcome of the external `generateContent` call: success carries the
optional `response.text`, failure is a thrown transport or service error. -/
inductive GenCallResult where
  | success (text : Option String)
  | failure
deriving Repr, DecidableEq

/-- Result of `generateSummary`: the summary string it stores, and whether
the external generation collaborator was contacted at all. -/
structure GenSummaryResult where
  summary : String
  networkCalled : Bool
deriving Repr, DecidableEq

/-- JavaScript falsiness of `process.env.GEMINI_API_KEY` (`!apiKey`):
the variable is absent, or it is the empty string. -/
def keyFalsy : Option String → Bool
  | none => true
  | some k => k == ""

/-- Shallow embedding of `generateSummary` (`App.tsx` lines 397-430).
`apiKey` is the value of the `GEMINI_API_KEY` environment variable and
`callResult` the outcome of the external call, which is consulted only
when the credential check passes. -/
def generateSummary (apiKey : Option String) (callResult : GenCallResult) : GenSummaryResult :=
  if keyFalsy apiKey || apiKey == some placeholderKey || apiKey == some undefinedKeyLiteral then
    { summary := missingKeySentinel, networkCalled := false }
  else
    match callResult with
    | .success none => { summary := genericFallback, networkCalled := true }
    | .success (some t) =>
        { summary := if t = "" then genericFallback else t, networkCalled := true }
    | .failure => { summary := genericFallback, networkCalled := true }

/-- The global regex replacement `name.replace(/\s+/g, '_')`: each maximal
run of whitespace characters becomes a single underscore. `sawWs` records
whether the previous character belonged to a whitespace run. -/
def underscoreWsRuns (sawWs : Bool) : List Char → List Char
  | [] => []
  | c :: rest =>
    if isJsWhitespace c then
      if sawWs then underscoreWsRuns true rest
      else '_' :: underscoreWsRuns true rest
    else c :: underscoreWsRuns false rest

/-- `s.replace(/\s+/g, '_')` on a whole string. -/
def jsReplaceWsWithUnderscore (s : String) : String :=
  String.mk (underscoreWsRuns false s.data)

/-- The fixed tail of the exported file name (`App.tsx` line 445). -/
def resumeSuffix : String := "_Resume.pdf"

/-- The file name passed to `pdf.save` in `downloadPDF` (`App.tsx` line 445). -/
def downloadFilename (data : ResumeData) : String :=
  jsReplaceWsWithUnderscore data.name ++ resumeSuffix

/-- An entirely blank resume record, for concrete evaluations. -/
def emptyRecord : ResumeData :=
  { name := "", email := "", phone := "", linkedin := "", github := "",
    location := "", college := "", degree := "", year := "", cgpa := "",
    technicalSkills := "", softSkills := "", projects := [], activities := [] }

/-- A fully filled-in record meeting every rubric criterion, for concrete
evaluations. -/
def fullRecord : ResumeData :=
  { name := "Ada Lovelace", email := "ada@example.com", phone := "1234567890",
    linkedin := "", github := "", location := "London",
    college := "Example University", degree := "B.S. Computer Science",
    year := "2027", cgpa := "3.9",
    technicalSkills := "a,b,c,d,e,f,g,h",
    softSkills := "communication",
    projects := [{ title := "P",
                   description := "Built a full stack web application with authentication",
                   technologies := "T" }],
    activities := [{ role := "R", achievements := "A" }] }

/-- A short summary with no marker substring, for concrete evaluations. -/
def goodSummary : String := "Driven first-year student."

/-- A summary that contains the marker substring but differs from the fixed
sentinel, for concrete evaluations. -/
def markerOnlySummary : String := "(Note: Gemini API key is missing from env)"

/-- The record used for the filename example, named Jane Q. Doe. -/
def janeRecord : ResumeData :=
  { emptyRecord with name := "Jane Q. Doe" }

/-- `contactStep` adds the contact points and appends the contact feedback. -/
theorem contactStep_eq (data : ResumeData) (st : Nat × List String) :
    contactStep data st = (st.1 + contactPoints data, st.2 ++ contactFeedback data) := by
  unfold contactStep contactPoints contactFeedback
  by_cases h : contactOk data <;> simp [h]

/-- `educationStep` adds the education points and appends the education feedback. -/
theorem educationStep_eq (data : ResumeData) (st : Nat × List String) :
    educationStep data st = (st.1 + educationPoints data, st.2 ++ educationFeedback data) := by
  unfold educationStep educationPoints educationFeedback
  by_cases h : educationOk data <;> simp [h]

/-- `skillsStep` adds the skills points and appends the skills feedback. -/
theorem skillsStep_eq (data : ResumeData) (st : Nat × List String) :
    skillsStep data st = (st.1 + skillsPoints data, st.2 ++ skillsFeedback data) := by
  unfold skillsStep skillsPoints skillsFeedback skillsPointsOfCount skillsFeedbackOfCount
  by_cases h8 : skillsCount data ≥ 8 <;>
  by_cases h5 : skillsCount data ≥ 5 <;>
  by_cases h3 : skillsCount data ≥ 3 <;>
  simp [h8, h5, h3]

/-- `projectsStep` adds the projects points and appends the projects feedback. -/
theorem projectsStep_eq (data : ResumeData) (st : Nat × List String) :
    projectsStep data st = (st.1 + projectsPoints data, st.2 ++ projectsFeedback data) := by
  unfold projectsStep projectsPoints projectsFeedback
  by_cases hp : data.projects.length > 0 <;>
  by_cases hl : hasLongDescription data <;>
  simp [hp, hl, Nat.add_assoc]

/-- `activitiesStep` adds the activities points and appends the activities feedback. -/
theorem activitiesStep_eq (data : ResumeData) (st : Nat × List String) :
    activitiesStep data st = (st.1 + activitiesPoints data, st.2 ++ activitiesFeedback data) := by
  unfold activitiesStep activitiesPoints activitiesFeedback
  by_cases h : data.activities.length > 0 <;> simp [h]

/-- `summaryStep` adds the summary points and appends the summary feedback. -/
theorem summaryStep_eq (summary : String) (st : Nat × List String) :
    summaryStep summary st = (st.1 + summaryPoints summary, st.2 ++ summaryFeedback summary) := by
  unfold summaryStep summaryPoints summaryFeedback
  by_cases h : summaryOk summary <;> simp [h]

/-- The sequentially threaded score splits into the six independent rubric
criteria, and the feedback into the corresponding six segments in
evaluation order. -/
theorem calculateResumeScore_decomp (data : ResumeData) (summary : String) :
    calculateResumeScore data summary =
      (contactPoints data + educationPoints data + skillsPoints data +
         projectsPoints data + activitiesPoints data + summaryPoints summary,
       contactFeedback data ++ educationFeedback data ++ skillsFeedback data ++
         projectsFeedback data ++ activitiesFeedback data ++ summaryFeedback summary) := by
  unfold calculateResumeScore
  rw [contactStep_eq, educationStep_eq, skillsStep_eq, projectsStep_eq,
    activitiesStep_eq, summaryStep_eq]
  simp [Nat.add_assoc, List.append_assoc]

/-- The projects criterion is fully met when a project exists and some
description exceeds 40 characters. -/
def projectsFullyMet (data : ResumeData) : Prop :=
  data.projects.length > 0 ∧ hasLongDescription data = true

instance (data : ResumeData) : Decidable (projectsFullyMet data) := by
  unfold projectsFullyMet
  infer_instance

theorem contactPoints_le (data : ResumeData) : contactPoints data ≤ 10 := by
  unfold contactPoints
  split <;> omega

theorem contactPoints_eq_iff (data : ResumeData) :
    contactPoints data = 10 ↔ contactOk data := by
  unfold contactPoints
  split <;> simp_all

theorem contactFeedback_nil_iff (data : ResumeData) :
    contactFeedback data = [] ↔ contactOk data := by
  unfold contactFeedback
  split <;> simp_all

theorem contactFeedback_len (data : ResumeData) (h : ¬ contactOk data) :
    (contactFeedback data).length = 1 := by
  unfold contactFeedback
  simp [h]

theorem educationPoints_le (data : ResumeData) : educationPoints data ≤ 15 := by
  unfold educationPoints
  split <;> omega

theorem educationPoints_eq_iff (data : ResumeData) :
    educationPoints data = 15 ↔ educationOk data := by
  unfold educationPoints
  split <;> simp_all

theorem educationFeedback_nil_iff (data : ResumeData) :
    educationFeedback data = [] ↔ educationOk data := by
  unfold educationFeedback
  split <;> simp_all

theorem educationFeedback_len (data : ResumeData) (h : ¬ educationOk data) :
    (educationFeedback data).length = 1 := by
  unfold educationFeedback
  simp [h]

theorem skillsPointsOfCount_le (n : Nat) : skillsPointsOfCount n ≤ 20 := by
  unfold skillsPointsOfCount
  split <;> [omega; split <;> [omega; split <;> omega]]

theorem skillsPointsOfCount_eq_iff (n : Nat) :
    skillsPointsOfCount n = 20 ↔ n ≥ 8 := by
  unfold skillsPointsOfCount
  split <;> [simp_all; split <;> [simp_all; split <;> simp_all]]

theorem skillsFeedbackOfCount_nil_iff (n : Nat) :
    skillsFeedbackOfCount n = [] ↔ n ≥ 8 := by
  unfold skillsFeedbackOfCount
  split <;> [simp_all; split <;> [simp_all; split <;> simp_all]]

theorem skillsFeedbackOfCount_len (n : Nat) (h : ¬ n ≥ 8) :
    (skillsFeedbackOfCount n).length = 1 := by
  unfold skillsFeedbackOfCount
  split <;> [simp_all; split <;> [simp; split <;> simp]]

theorem projectsPoints_le (data : ResumeData) : projectsPoints data ≤ 25 := by
  unfold projectsPoints
  split <;> [split <;> omega; omega]

theorem projectsPoints_eq_iff (data : ResumeData) :
    projectsPoints data = 25 ↔ projectsFullyMet data := by
  unfold projectsPoints projectsFullyMet
  by_cases hp : data.projects.length > 0 <;>
  by_cases hl : hasLongDescription data = true <;>
  simp [hp, hl]

theorem projectsFeedback_nil_iff (data : ResumeData) :
    projectsFeedback data = [] ↔ projectsFullyMet data := by
  unfold projectsFeedback projectsFullyMet
  by_cases hp : data.projects.length > 0 <;>
  by_cases hl : hasLongDescription data = true <;>
  simp [hp, hl]

theorem projectsFeedback_len (data : ResumeData) (h : ¬ projectsFullyMet data) :
    (projectsFeedback data).length = 1 := by
  unfold projectsFeedback
  unfold projectsFullyMet at h
  by_cases hp : data.projects.length > 0 <;>
  by_cases hl : hasLongDescription data = true <;>
  simp_all

theorem activitiesPoints_le (data : ResumeData) : activitiesPoints data ≤ 10 := by
  unfold activitiesPoints
  split <;> omega

theorem activitiesPoints_eq_iff (data : ResumeData) :
    activitiesPoints data = 10 ↔ data.activities.length > 0 := by
  unfold activitiesPoints
  split <;> simp_all

theorem activitiesFeedback_nil_iff (data : ResumeData) :
    activitiesFeedback data = [] ↔ data.activities.length > 0 := by
  unfold activitiesFeedback
  split <;> simp_all

theorem activitiesFeedback_len (data : ResumeData) (h : ¬ data.activities.length > 0) :
    (activitiesFeedback data).length = 1 := by
  unfold activitiesFeedback
  simp [h]

theorem summaryPoints_le (summary : String) : summaryPoints summary ≤ 20 := by
  unfold summaryPoints
  split <;> omega

theorem summaryPoints_eq_iff (summary : String) :
    summaryPoints summary = 20 ↔ summaryOk summary := by
  unfold summaryPoints
  split <;> simp_all

theorem summaryPoints_eq_zero_or (summary : String) :
    summaryPoints summary = 0 ∨ summaryPoints summary = 20 := by
  unfold summaryPoints
  split <;> simp

theorem summaryFeedback_nil_iff (summary : String) :
    summaryFeedback summary = [] ↔ summaryOk summary := by
  unfold summaryFeedback
  split <;> simp_all

theorem summaryFeedback_len (summary : String) (h : ¬ summaryOk summary) :
    (summaryFeedback summary).length = 1 := by
  unfold summaryFeedback
  simp [h]

/-- The score component of the decomposition, with the summary part isolated. -/
theorem score_eq_nonSummary_add (data : ResumeData) (summary : String) :
    (calculateResumeScore data summary).1 = nonSummaryPoints data + summaryPoints summary := by
  rw [calculateResumeScore_decomp]
  unfold nonSummaryPoints
  ring

/-- The score component of the decomposition. -/
theorem score_eq_sum (data : ResumeData) (summary : String) :
    (calculateResumeScore data summary).1 =
      contactPoints data + educationPoints data + skillsPoints data +
        projectsPoints data + activitiesPoints data + summaryPoints summary := by
  rw [calculateResumeScore_decomp]

/-- The feedback component of the decomposition. -/
theorem feedback_eq_append (data : ResumeData) (summary : String) :
    (calculateResumeScore data summary).2 =
      contactFeedback data ++ educationFeedback data ++ skillsFeedback data ++
        projectsFeedback data ++ activitiesFeedback data ++ summaryFeedback summary := by
  rw [calculateResumeScore_decomp]

theorem skillsPoints_le (data : ResumeData) : skillsPoints data ≤ 20 :=
  skillsPointsOfCount_le (skillsCount data)

/-- The empty credential string, which is falsy in JavaScript. -/
def emptyKey : String := ""

/-- A stand-in for a genuine credential value, for concrete evaluations. -/
def exampleRealKey : String := "AIzaExampleKey"

/-- C1: for every record whose name, email, phone, college and degree are
non-empty, whose technicalSkills string splits on commas into at least 8
non-whitespace entries, with at least one project whose description is
longer than 40 characters and at least one activity, and every non-empty
summary not containing the missing-API-key marker, `calculateResumeScore`
returns score 100 and empty feedback. -/
theorem perfect_record_scores_100 (data : ResumeData) (summary : String)
    (hname : data.name ≠ "") (hemail : data.email ≠ "") (hphone : data.phone ≠ "")
    (hcollege : data.college ≠ "") (hdegree : data.degree ≠ "")
    (hskills : skillsCount data ≥ 8)
    (hproj : ∃ p ∈ data.projects, p.description.length > 40)
    (hact : data.activities.length > 0)
    (hsum : summary ≠ "") (hmarker : jsIncludes summary apiKeyMarker = false) :
    calculateResumeScore data summary = (100, []) := by
  have hc : contactOk data := ⟨hname, hemail, hphone⟩
  have he : educationOk data := ⟨hcollege, hdegree⟩
  have hs : summaryOk summary := ⟨hsum, hmarker⟩
  have hlong : hasLongDescription data = true := by
    unfold hasLongDescription
    rw [List.any_eq_true]
    obtain ⟨p, hp, hlen⟩ := hproj
    exact ⟨p, hp, by simpa using hlen⟩
  have hplen : data.projects.length > 0 := by
    obtain ⟨p, hp, _⟩ := hproj
    exact List.length_pos.mpr (List.ne_nil_of_mem hp)
  rw [calculateResumeScore_decomp]
  unfold contactPoints educationPoints skillsPoints skillsPointsOfCount projectsPoints
    activitiesPoints summaryPoints contactFeedback educationFeedback skillsFeedback
    skillsFeedbackOfCount projectsFeedback activitiesFeedback summaryFeedback
  simp [hc, he, hs, hskills, hplen, hlong, hact]

/-- C1 witness: the fully filled-in sample record with a real summary
satisfies every hypothesis and scores 100 with no feedback. -/
theorem perfect_record_scores_100_witness :
    calculateResumeScore fullRecord goodSummary = (100, []) :=
  perfect_record_scores_100 fullRecord goodSummary (by decide) (by decide) (by decide)
    (by decide) (by decide) (by decide)
    ⟨{ title := "P",
       description := "Built a full stack web application with authentication",
       technologies := "T" }, by decide, by decide⟩
    (by decide) (by decide) (by decide)

/-- C2: the skills criterion is the monotone step function of the non-blank
comma-separated skill count: its contribution to the score is 20 at count
at least 8, 10 at 5 to 7, 5 at 3 to 4, 0 below 3; in particular 3 gives 5,
5 gives 10, 7 gives 10 and 8 gives 20. -/
theorem skills_criterion_step_function (data : ResumeData) (summary : String) (n : Nat) :
    ((calculateResumeScore data summary).1 =
        contactPoints data + educationPoints data + skillsPointsOfCount (skillsCount data) +
          projectsPoints data + activitiesPoints data + summaryPoints summary) ∧
    skillsPointsOfCount 3 = 5 ∧ skillsPointsOfCount 5 = 10 ∧
    skillsPointsOfCount 7 = 10 ∧ skillsPointsOfCount 8 = 20 ∧
    (8 ≤ n → skillsPointsOfCount n = 20) ∧
    (5 ≤ n → n < 8 → skillsPointsOfCount n = 10) ∧
    (3 ≤ n → n < 5 → skillsPointsOfCount n = 5) ∧
    (n < 3 → skillsPointsOfCount n = 0) ∧
    Monotone skillsPointsOfCount := by
  refine ⟨score_eq_sum data summary, by decide, by decide, by decide, by decide,
    ?_, ?_, ?_, ?_, ?_⟩
  · intro h
    unfold skillsPointsOfCount
    rw [if_pos h]
  · intro h5 h8
    unfold skillsPointsOfCount
    rw [if_neg (by omega), if_pos h5]
  · intro h3 h5
    unfold skillsPointsOfCount
    rw [if_neg (by omega), if_neg (by omega), if_pos h3]
  · intro h3
    unfold skillsPointsOfCount
    rw [if_neg (by omega), if_neg (by omega), if_neg (by omega)]
  · intro a b hab
    unfold skillsPointsOfCount
    split_ifs <;> omega

/-- C2 witness: the step function evaluated across all four bands via the
theorem. -/
theorem skills_criterion_step_function_witness :
    skillsPointsOfCount 9 = 20 ∧ skillsPointsOfCount 6 = 10 ∧
    skillsPointsOfCount 4 = 5 ∧ skillsPointsOfCount 2 = 0 :=
  ⟨(skills_criterion_step_function fullRecord goodSummary 9).2.2.2.2.2.1 (by decide),
   (skills_criterion_step_function fullRecord goodSummary 6).2.2.2.2.2.2.1
     (by decide) (by decide),
   (skills_criterion_step_function fullRecord goodSummary 4).2.2.2.2.2.2.2.1
     (by decide) (by decide),
   (skills_criterion_step_function fullRecord goodSummary 2).2.2.2.2.2.2.2.2.1 (by decide)⟩

/-- C3: the feedback sequence is the concatenation, in rubric order
(contact, education, skills, projects, activities, summary quality), of
one segment per criterion; a fully met criterion contributes the empty
segment and an unmet one contributes exactly one suggestion. -/
theorem feedback_one_per_unmet_criterion (data : ResumeData) (summary : String) :
    ((calculateResumeScore data summary).2 =
        contactFeedback data ++ educationFeedback data ++ skillsFeedback data ++
          projectsFeedback data ++ activitiesFeedback data ++ summaryFeedback summary) ∧
    (contactOk data → contactFeedback data = []) ∧
    (¬ contactOk data → (contactFeedback data).length = 1) ∧
    (educationOk data → educationFeedback data = []) ∧
    (¬ educationOk data → (educationFeedback data).length = 1) ∧
    (skillsCount data ≥ 8 → skillsFeedback data = []) ∧
    (¬ skillsCount data ≥ 8 → (skillsFeedback data).length = 1) ∧
    (projectsFullyMet data → projectsFeedback data = []) ∧
    (¬ projectsFullyMet data → (projectsFeedback data).length = 1) ∧
    (data.activities.length > 0 → activitiesFeedback data = []) ∧
    (¬ data.activities.length > 0 → (activitiesFeedback data).length = 1) ∧
    (summaryOk summary → summaryFeedback summary = []) ∧
    (¬ summaryOk summary → (summaryFeedback summary).length = 1) :=
  ⟨feedback_eq_append data summary,
   fun h => (contactFeedback_nil_iff data).mpr h,
   fun h => contactFeedback_len data h,
   fun h => (educationFeedback_nil_iff data).mpr h,
   fun h => educationFeedback_len data h,
   fun h => (skillsFeedbackOfCount_nil_iff (skillsCount data)).mpr h,
   fun h => skillsFeedbackOfCount_len (skillsCount data) h,
   fun h => (projectsFeedback_nil_iff data).mpr h,
   fun h => projectsFeedback_len data h,
   fun h => (activitiesFeedback_nil_iff data).mpr h,
   fun h => activitiesFeedback_len data h,
   fun h => (summaryFeedback_nil_iff summary).mpr h,
   fun h => summaryFeedback_len summary h⟩

/-- C3 witness: on the blank record every criterion is unmet, each segment
has exactly one suggestion, and on the full record the contact segment
is empty. -/
theorem feedback_one_per_unmet_criterion_witness :
    ((calculateResumeScore emptyRecord emptyKey).2 =
        contactFeedback emptyRecord ++ educationFeedback emptyRecord ++
          skillsFeedback emptyRecord ++ projectsFeedback emptyRecord ++
          activitiesFeedback emptyRecord ++ summaryFeedback emptyKey) ∧
    (contactFeedback emptyRecord).length = 1 ∧
    (educationFeedback emptyRecord).length = 1 ∧
    (skillsFeedback emptyRecord).length = 1 ∧
    (projectsFeedback emptyRecord).length = 1 ∧
    (activitiesFeedback emptyRecord).length = 1 ∧
    (summaryFeedback emptyKey).length = 1 ∧
    contactFeedback fullRecord = [] :=
  ⟨(feedback_one_per_unmet_criterion emptyRecord emptyKey).1,
   (feedback_one_per_unmet_criterion emptyRecord emptyKey).2.2.1 (by decide),
   (feedback_one_per_unmet_criterion emptyRecord emptyKey).2.2.2.2.1 (by decide),
   (feedback_one_per_unmet_criterion emptyRecord emptyKey).2.2.2.2.2.2.1 (by decide),
   (feedback_one_per_unmet_criterion emptyRecord emptyKey).2.2.2.2.2.2.2.2.1 (by decide),
   (feedback_one_per_unmet_criterion emptyRecord emptyKey).2.2.2.2.2.2.2.2.2.2.1 (by decide),
   (feedback_one_per_unmet_criterion emptyRecord emptyKey).2.2.2.2.2.2.2.2.2.2.2.2 (by decide),
   (feedback_one_per_unmet_criterion fullRecord emptyKey).2.1 (by decide)⟩

/-- C4 counterexample: a summary that contains the marker substring but is
not the fixed sentinel is non-empty and distinct from the sentinel, yet
the 20-point bonus is withheld (the otherwise perfect record scores only
80 with it, against the 100 the claim predicts). -/
theorem summary_bonus_sentinel_counterexample :
    markerOnlySummary ≠ "" ∧
    markerOnlySummary ≠ missingKeySentinel ∧
    (calculateResumeScore fullRecord markerOnlySummary).1 = 80 ∧
    (calculateResumeScore fullRecord goodSummary).1 = 100 :=
  ⟨by decide, by decide, by decide, by decide⟩

/-- C4 (amended): the 20-point summary bonus is awarded iff the summary is
non-empty and does not contain the marker substring
"(Note: Gemini API key is missing"; the fixed sentinel contains the
marker, so the bonus is withheld for it. -/
theorem summary_bonus_iff_marker_absent :
    (∀ (data : ResumeData) (summary : String),
        (calculateResumeScore data summary).1 =
          nonSummaryPoints data + summaryPoints summary) ∧
    (∀ summary : String,
        summaryPoints summary = 20 ↔
          (summary ≠ "" ∧ jsIncludes summary apiKeyMarker = false)) ∧
    (∀ summary : String, summaryPoints summary = 0 ∨ summaryPoints summary = 20) ∧
    jsIncludes missingKeySentinel apiKeyMarker = true ∧
    summaryPoints missingKeySentinel = 0 := by
  refine ⟨score_eq_nonSummary_add, fun s => ?_, summaryPoints_eq_zero_or,
    by decide, by decide⟩
  rw [summaryPoints_eq_iff]
  unfold summaryOk
  exact Iff.rfl

/-- C4 witness: the amended criterion applied to the concrete good summary
and the concrete sentinel. -/
theorem summary_bonus_iff_marker_absent_witness :
    summaryPoints goodSummary = 20 ∧ summaryPoints missingKeySentinel = 0 :=
  ⟨(summary_bonus_iff_marker_absent.2.1 goodSummary).mpr ⟨by decide, by decide⟩,
   summary_bonus_iff_marker_absent.2.2.2.2⟩

/-- C5: when the credential check passes and the external call fails,
`generateSummary` stores the generic fallback, which differs from the
missing-credential sentinel, and `calculateResumeScore` does award the
20-point summary bonus for that generic fallback. -/
theorem service_failure_generic_fallback (k : String)
    (hk : ¬ (k = "" ∨ k = placeholderKey ∨ k = undefinedKeyLiteral)) :
    (generateSummary (some k) GenCallResult.failure).summary = genericFallback ∧
    genericFallback ≠ missingKeySentinel ∧
    summaryPoints genericFallback = 20 ∧
    (∀ data : ResumeData,
        (calculateResumeScore data genericFallback).1 = nonSummaryPoints data + 20) := by
  have h1 : k ≠ "" := fun h => hk (Or.inl h)
  have h2 : k ≠ placeholderKey := fun h => hk (Or.inr (Or.inl h))
  have h3 : k ≠ undefinedKeyLiteral := fun h => hk (Or.inr (Or.inr h))
  refine ⟨?_, by decide, by decide, fun data => ?_⟩
  · unfold generateSummary keyFalsy
    simp [h1, h2, h3]
  · rw [score_eq_nonSummary_add]
    have h20 : summaryPoints genericFallback = 20 := by decide
    rw [h20]

/-- C5 witness: the theorem applied to a stand-in real credential. -/
theorem service_failure_generic_fallback_witness :
    (generateSummary (some exampleRealKey) GenCallResult.failure).summary =
        genericFallback ∧
    genericFallback ≠ missingKeySentinel ∧
    summaryPoints genericFallback = 20 ∧
    (∀ data : ResumeData,
        (calculateResumeScore data genericFallback).1 = nonSummaryPoints data + 20) :=
  service_failure_generic_fallback exampleRealKey (by decide)

/-- C6: when the environment credential is absent, empty, the placeholder
value or the literal string "undefined", `generateSummary` substitutes the
fixed sentinel and returns without consulting the external collaborator,
whatever that call would have produced. -/
theorem missing_credential_short_circuit (apiKey : Option String) (res : GenCallResult)
    (h : apiKey = none ∨ apiKey = some emptyKey ∨ apiKey = some placeholderKey ∨
      apiKey = some undefinedKeyLiteral) :
    generateSummary apiKey res =
      { summary := missingKeySentinel, networkCalled := false } := by
  rcases h with h | h | h | h <;> subst h <;>
    simp [generateSummary, keyFalsy, emptyKey]

/-- C6 witness: a missing credential short-circuits even a would-be failing
call. -/
theorem missing_credential_short_circuit_witness :
    generateSummary none GenCallResult.failure =
      { summary := missingKeySentinel, networkCalled := false } :=
  missing_credential_short_circuit none GenCallResult.failure (Or.inl rfl)

/-- C7: the exported file name is the record's name with each whitespace run
replaced by an underscore, followed by the fixed suffix; the name
Jane Q. Doe yields Jane_Q._Doe_Resume.pdf. -/
theorem download_filename_derivation :
    (∀ data : ResumeData,
        downloadFilename data = jsReplaceWsWithUnderscore data.name ++ resumeSuffix) ∧
    downloadFilename janeRecord = "Jane_Q._Doe_Resume.pdf" :=
  ⟨fun _ => rfl, by decide⟩

/-- C8: `calculateResumeScore` is deterministic: identical record and summary
inputs produce identical score and feedback pairs. -/
theorem calculateResumeScore_deterministic (data₁ data₂ : ResumeData)
    (summary₁ summary₂ : String) (hd : data₁ = data₂) (hs : summary₁ = summary₂) :
    calculateResumeScore data₁ summary₁ = calculateResumeScore data₂ summary₂ := by
  rw [hd, hs]

/-- C8 witness: two calls on the concrete full record coincide. -/
theorem calculateResumeScore_deterministic_witness :
    calculateResumeScore fullRecord goodSummary =
      calculateResumeScore fullRecord goodSummary :=
  calculateResumeScore_deterministic fullRecord fullRecord goodSummary goodSummary rfl rfl

/-- C9: for every record and summary the score lies between 0 and 100
inclusive. -/
theorem score_within_bounds (data : ResumeData) (summary : String) :
    0 ≤ (calculateResumeScore data summary).1 ∧
      (calculateResumeScore data summary).1 ≤ 100 := by
  refine ⟨Nat.zero_le _, ?_⟩
  rw [score_eq_sum]
  have h1 := contactPoints_le data
  have h2 := educationPoints_le data
  have h3 := skillsPoints_le data
  have h4 := projectsPoints_le data
  have h5 := activitiesPoints_le data
  have h6 := summaryPoints_le summary
  omega

/-- C10: the score is exactly 100 iff the feedback sequence is empty: every
deduction comes with a suggestion and every suggestion marks lost points. -/
theorem perfect_score_iff_empty_feedback (data : ResumeData) (summary : String) :
    (calculateResumeScore data summary).1 = 100 ↔
      (calculateResumeScore data summary).2 = [] := by
  rw [score_eq_sum, feedback_eq_append]
  constructor
  · intro h
    have b1 := contactPoints_le data
    have b2 := educationPoints_le data
    have b3 := skillsPoints_le data
    have b4 := projectsPoints_le data
    have b5 := activitiesPoints_le data
    have b6 := summaryPoints_le summary
    have e1 : contactPoints data = 10 := by omega
    have e2 : educationPoints data = 15 := by omega
    have e3 : skillsPoints data = 20 := by omega
    have e4 : projectsPoints data = 25 := by omega
    have e5 : activitiesPoints data = 10 := by omega
    have e6 : summaryPoints summary = 20 := by omega
    have f1 := (contactFeedback_nil_iff data).mpr ((contactPoints_eq_iff data).mp e1)
    have f2 := (educationFeedback_nil_iff data).mpr ((educationPoints_eq_iff data).mp e2)
    have f3 := (skillsFeedbackOfCount_nil_iff (skillsCount data)).mpr
      ((skillsPointsOfCount_eq_iff (skillsCount data)).mp e3)
    have f4 := (projectsFeedback_nil_iff data).mpr ((projectsPoints_eq_iff data).mp e4)
    have f5 := (activitiesFeedback_nil_iff data).mpr ((activitiesPoints_eq_iff data).mp e5)
    have f6 := (summaryFeedback_nil_iff summary).mpr ((summaryPoints_eq_iff summary).mp e6)
    unfold skillsFeedback
    rw [f1, f2, f3, f4, f5, f6]
    rfl
  · intro h
    simp only [List.append_eq_nil] at h
    obtain ⟨⟨⟨⟨⟨f1, f2⟩, f3⟩, f4⟩, f5⟩, f6⟩ := h
    have e1 := (contactPoints_eq_iff data).mpr ((contactFeedback_nil_iff data).mp f1)
    have e2 := (educationPoints_eq_iff data).mpr ((educationFeedback_nil_iff data).mp f2)
    have e3 := (skillsPointsOfCount_eq_iff (skillsCount data)).mpr
      ((skillsFeedbackOfCount_nil_iff (skillsCount data)).mp f3)
    have e4 := (projectsPoints_eq_iff data).mpr ((projectsFeedback_nil_iff data).mp f4)
    have e5 := (activitiesPoints_eq_iff data).mpr ((activitiesFeedback_nil_iff data).mp f5)
    have e6 := (summaryPoints_eq_iff summary).mpr ((summaryFeedback_nil_iff summary).mp f6)
    unfold skillsPoints
    rw [e1, e2, e3, e4, e5, e6]

/-- C7 witness: the filename equation applied at the Jane record. -/
theorem download_filename_derivation_witness :
    downloadFilename janeRecord = jsReplaceWsWithUnderscore janeRecord.name ++ resumeSuffix :=
  download_filename_derivation.1 janeRecord

/-- C9 witness: the bounds at the concrete full record. -/
theorem score_within_bounds_witness :
    0 ≤ (calculateResumeScore fullRecord goodSummary).1 ∧
      (calculateResumeScore fullRecord goodSummary).1 ≤ 100 :=
  score_within_bounds fullRecord goodSummary

/-- C10 witness: the equivalence at the concrete full record, whose feedback
is empty, forces the perfect score. -/
theorem perfect_score_iff_empty_feedback_witness :
    (calculateResumeScore fullRecord goodSummary).1 = 100 :=
  (perfect_score_iff_empty_feedback fullRecord goodSummary).mpr (by decide)

end ResumeBuilder
